import Mathlib

/-!
Verification of the request/response adaptation layer of the
`SambaStudio` / `SambaNovaCloud` LLM clients
(`src/utils/model_wrappers/langchain_llms.py`).

The embedding models Python JSON-like runtime values with the inductive
type `Py`; Python dictionaries are association lists that keep Python's
insertion-order semantics (updating an existing key keeps its position,
a fresh key is appended).  JSON parsing (`json.loads` / `response.json()`,
which are library functions, not repository code) is modelled as an
oracle: a payload is carried both as its raw text and as its already
parsed `Option Py` value, `Option.none` meaning the parse raises.
-/

/-- Python runtime values (the JSON-like fragment the clients use). -/
inductive Py where
  | none
  | bool (b : Bool)
  | int (n : Int)
  | str (s : String)
  | list (xs : List Py)
  | dict (kvs : List (String × Py))

/-- Association-list lookup: first binding wins (Python dicts have unique keys). -/
def pyLookup : List (String × Py) → String → Option Py
  | [], _ => Option.none
  | (k, v) :: rest, key => if k = key then some v else pyLookup rest key

/-- `d[key] = v` on a Python dict: update in place if the key exists, else append. -/
def dictSet : List (String × Py) → String → Py → List (String × Py)
  | [], key, v => [(key, v)]
  | (k, w) :: rest, key, v =>
    if k = key then (key, v) :: rest else (k, w) :: dictSet rest key v

/-- `d.pop(key)`: remove the binding of `key` (no-op if absent, matching guarded use). -/
def dictPop : List (String × Py) → String → List (String × Py)
  | [], _ => []
  | (k, v) :: rest, key => if k = key then rest else (k, v) :: dictPop rest key

/-- `key in d`. -/
def dictHasKey (d : List (String × Py)) (key : String) : Bool :=
  (pyLookup d key).isSome

/-- `if old in d: d[new] = d.pop(old)` — the rename idiom used by `_get_tuning_params`. -/
def renameKey (d : List (String × Py)) (old new : String) : List (String × Py) :=
  match pyLookup d old with
  | some v => dictSet (dictPop d old) new v
  | Option.none => d

/-- Python truthiness of a value. -/
def truthy : Py → Bool
  | .none => false
  | .bool b => b
  | .int n => n != 0
  | .str s => s ≠ ""
  | .list xs => !xs.isEmpty
  | .dict kvs => !kvs.isEmpty

/-- Truthiness of `d.get(k)`-style results (`None` when absent). -/
def truthyOpt : Option Py → Bool
  | Option.none => false
  | some v => truthy v

/-- `x is None` for a `d.get(k)` result: absent key and stored JSON `null`
both come back as Python `None`. -/
def optIsNone : Option Py → Bool
  | Option.none => true
  | some .none => true
  | some _ => false

/-- Exceptions raised by the subscription / attribute primitives. -/
inductive PyExn where
  | keyError (k : String)
  | indexError
  | typeError
  | attributeError

/-- `v[k]` for a string key: `KeyError` when absent, `TypeError` otherwise. -/
def pySubKey (v : Py) (k : String) : Except PyExn Py :=
  match v with
  | .dict kvs =>
    match pyLookup kvs k with
    | some x => .ok x
    | Option.none => .error (.keyError k)
  | _ => .error .typeError

/-- `v[i]` for a numeric index on a list. -/
def pySubIdx (v : Py) (i : Nat) : Except PyExn Py :=
  match v with
  | .list xs =>
    match xs[i]? with
    | some x => .ok x
    | Option.none => .error .indexError
  | _ => .error .indexError

/-- `v.get(k)`: only dicts have `.get`; returns `None` (here `Option.none`) when absent. -/
def pyGetKey (v : Py) (k : String) : Except PyExn (Option Py) :=
  match v with
  | .dict kvs => .ok (pyLookup kvs k)
  | _ => .error .attributeError

/-- `len(v)` for a list. -/
def pyLen (v : Py) : Except PyExn Nat :=
  match v with
  | .list xs => .ok xs.length
  | .str s => .ok s.length
  | .dict kvs => .ok kvs.length
  | _ => .error .typeError

/-- Does `pat` match at the head of `s`? -/
def leadMatch : List Char → List Char → Bool
  | [], _ => true
  | _ :: _, [] => false
  | p :: ps, c :: cs => p = c && leadMatch ps cs

/-- Does `pat` occur somewhere inside `s` (Python `pat in s`)? -/
def listHasSub : List Char → List Char → Bool
  | s, pat =>
    match s with
    | [] => pat.isEmpty
    | _ :: rest => leadMatch pat s || listHasSub rest pat

/-- Python `sub in hay` on strings. -/
def pyContains (hay sub : String) : Bool :=
  listHasSub hay.toList sub.toList

/-- Fuelled worker for the replace-all scan: the fuel bounds the number of
consumed characters, so the recursion is structural (and kernel-reducible). -/
def replCharsF : Nat → List Char → List Char → List Char → List Char
  | 0, _, _, _ => []
  | _ + 1, [], _, _ => []
  | fuel + 1, c :: rest, pat, rep =>
    if pat ≠ [] ∧ leadMatch pat (c :: rest) then
      rep ++ replCharsF fuel (List.drop (pat.length - 1) rest) pat rep
    else
      c :: replCharsF fuel rest pat rep

/-- Replace every (leftmost, non-overlapping) occurrence of `pat` by `rep`,
the semantics of Python `str.replace` (and of `rep0.join(s.split(pat))`
when `rep0 = pat ++ ins`).  Each step consumes at least one character, so
fuel `s.length` is always sufficient. -/
def replChars (s pat rep : List Char) : List Char :=
  replCharsF s.length s pat rep

/-- Python `s.replace(pat, rep)` (all occurrences). -/
def pyReplaceAll (s pat rep : String) : String :=
  String.mk (replChars s.toList pat.toList rep.toList)

/-- Decimal digit character. -/
def digitChar (n : Nat) : Char := Char.ofNat (48 + n)

/-- Decimal form of a natural number (Python `str` for non-negative ints). -/
def natToStr (n : Nat) : List Char :=
  if h : n < 10 then [digitChar n]
  else natToStr (n / 10) ++ [digitChar (n % 10)]
termination_by n
decreasing_by exact Nat.div_lt_self (by omega) (by omega)

/-- Decimal form of an integer (Python `str(int)`). -/
def intToStr (n : Int) : List Char :=
  if n < 0 then '-' :: natToStr n.natAbs else natToStr n.toNat

/-- Numeric value of a decimal digit character, if it is one. -/
def digitVal (c : Char) : Option Nat :=
  if 48 ≤ c.toNat ∧ c.toNat ≤ 57 then some (c.toNat - 48) else Option.none

/-- Accumulating decimal reader. -/
def parseNatFrom (acc : Nat) : List Char → Option Nat
  | [] => some acc
  | c :: cs =>
    match digitVal c with
    | some d => parseNatFrom (acc * 10 + d) cs
    | Option.none => Option.none

/-- Read a non-empty string of decimal digits (Python `int(s)` for `s` of digits). -/
def parseNat (l : List Char) : Option Nat :=
  match l with
  | [] => Option.none
  | _ :: _ => parseNatFrom 0 l

/-- Read an optionally `-`-signed decimal integer (Python `int(s)`). -/
def parseInt : List Char → Option Int
  | [] => Option.none
  | c :: cs =>
    if c = '-' then (parseNat cs).map (fun m => -(Int.ofNat m))
    else (parseNat (c :: cs)).map (fun m => Int.ofNat m)

/-- The single-quote character, kept out of string literals. -/
def quoteChar : Char := Char.ofNat 39

/-- Minimal Python-style escaping used inside `repr` of strings
(backslash, newline, carriage return, tab and the quote character). -/
def escapeChars : List Char → List Char
  | [] => []
  | c :: cs =>
    if c = '\\' then '\\' :: '\\' :: escapeChars cs
    else if c = '\n' then '\\' :: 'n' :: escapeChars cs
    else if c = '\r' then '\\' :: 'r' :: escapeChars cs
    else if c = '\t' then '\\' :: 't' :: escapeChars cs
    else if c = quoteChar then '\\' :: quoteChar :: escapeChars cs
    else c :: escapeChars cs

/-- `repr` of a Python string: single-quoted, escaped. -/
def strQuote (s : String) : String :=
  String.mk (quoteChar :: escapeChars s.toList ++ [quoteChar])

/-- JSON string-body escaping (backslash, double quote, newline, return, tab). -/
def jsonEscapeChars : List Char → List Char
  | [] => []
  | c :: cs =>
    if c = '\\' then '\\' :: '\\' :: jsonEscapeChars cs
    else if c = '\"' then '\\' :: '\"' :: jsonEscapeChars cs
    else if c = '\n' then '\\' :: 'n' :: jsonEscapeChars cs
    else if c = '\r' then '\\' :: 'r' :: jsonEscapeChars cs
    else if c = '\t' then '\\' :: 't' :: jsonEscapeChars cs
    else c :: jsonEscapeChars cs

mutual

/-- Python `repr` on the modelled values. -/
def pyRepr : Py → String
  | .none => "None"
  | .bool true => "True"
  | .bool false => "False"
  | .int n => String.mk (intToStr n)
  | .str s => strQuote s
  | .list xs => "[" ++ pyReprList xs ++ "]"
  | .dict kvs => "\x7b" ++ pyReprKVs kvs ++ "\x7d"

/-- Comma-joined `repr` of list elements. -/
def pyReprList : List Py → String
  | [] => ""
  | [x] => pyRepr x
  | x :: y :: rest => pyRepr x ++ ", " ++ pyReprList (y :: rest)

/-- Comma-joined `repr` of dict items. -/
def pyReprKVs : List (String × Py) → String
  | [] => ""
  | [(k, v)] => strQuote k ++ ": " ++ pyRepr v
  | (k, v) :: kv :: rest => strQuote k ++ ": " ++ pyRepr v ++ ", " ++ pyReprKVs (kv :: rest)

end

/-- Python `str(v)`: the bare string for strings, `repr`-based otherwise. -/
def pyStr : Py → String
  | .str s => s
  | v => pyRepr v

/-- Python `type(v).__name__` on the modelled values. -/
def typeName : Py → String
  | .none => "NoneType"
  | .bool _ => "bool"
  | .int _ => "int"
  | .str _ => "str"
  | .list _ => "list"
  | .dict _ => "dict"

mutual

/-- `json.dumps` with its default separators. -/
def jsonDumps : Py → String
  | .none => "null"
  | .bool true => "true"
  | .bool false => "false"
  | .int n => String.mk (intToStr n)
  | .str s => "\"" ++ String.mk (jsonEscapeChars s.toList) ++ "\""
  | .list xs => "[" ++ jsonDumpsList xs ++ "]"
  | .dict kvs => "\x7b" ++ jsonDumpsKVs kvs ++ "\x7d"

/-- Comma-joined dumps of array elements. -/
def jsonDumpsList : List Py → String
  | [] => ""
  | [x] => jsonDumps x
  | x :: y :: rest => jsonDumps x ++ ", " ++ jsonDumpsList (y :: rest)

/-- Comma-joined dumps of object members. -/
def jsonDumpsKVs : List (String × Py) → String
  | [] => ""
  | [(k, v)] => "\"" ++ k ++ "\": " ++ jsonDumps v
  | (k, v) :: kv :: rest => "\"" ++ k ++ "\": " ++ jsonDumps v ++ ", " ++ jsonDumpsKVs (kv :: rest)

end

/-- The `{type, value}` string envelope produced for every generic-v1 parameter. -/
def envelope (v : Py) : Py :=
  Py.dict [("type", .str (typeName v)), ("value", .str (pyStr v))]

/-- The primitive types for which the envelope is claimed to round-trip. -/
def isPrim : Py → Bool
  | .int _ => true
  | .bool _ => true
  | .str _ => true
  | _ => false

/-- Reading an envelope `value` string back through the declared `type` name. -/
def parsePrim (ty : String) (s : String) : Option Py :=
  if ty = "int" then (parseInt s.toList).map Py.int
  else if ty = "bool" then
    if s = "True" then some (.bool true)
    else if s = "False" then some (.bool false)
    else Option.none
  else if ty = "str" then some (.str s)
  else Option.none

/-- Boolean success test for `Except`. -/
def exceptOk : Except ε α → Bool
  | .ok _ => true
  | .error _ => false

/-- `SambaStudio._get_sambastudio_urls`: derive the (base, streaming) URL pair
from the configured URL.  `"generic/stream".join(url.split("generic"))` in the
source is the replace-all of `"generic"` by `"generic/stream"`. -/
def get_sambastudio_urls (url : String) : Except String (String × String) :=
  if pyContains url "openai" then .ok (url, url)
  else
    if pyContains url "stream" then .ok (pyReplaceAll url "stream/" "", url)
    else
      if pyContains url "generic" then .ok (url, pyReplaceAll url "generic" "generic/stream")
      else .error "Unsupported URL"

/-- The three self-hosted wire formats, as dispatched on URL substrings. -/
inductive StudioVariant where
  | openaiCompatible
  | genericV2
  | genericV1
deriving DecidableEq

/-- The substring dispatch performed (inline) by `_get_tuning_params`,
`_handle_request`, `_process_response` and `_process_stream_response`:
`"openai"`, then `"api/v2/predict/generic"`, then `"api/predict/generic"`. -/
def studioVariant (url : String) : Option StudioVariant :=
  if pyContains url "openai" then some .openaiCompatible
  else if pyContains url "api/v2/predict/generic" then some .genericV2
  else if pyContains url "api/predict/generic" then some .genericV1
  else Option.none

/-- Core of `SambaStudio._get_tuning_params`, acting on an explicit dict state:
returns `(tuning_params, final state of the dict it worked on)`.  The stop
sequences found in the dict are concatenated with the call-time `stop` list
(a Python `None` argument is normalised to `[]` by the source's first lines);
the merged list is written back into the same dict, and the renames pop/assign
on that same dict. -/
def tuningCore (url : String) (mk : List (String × Py)) (stop : List String) :
    Except String (List (String × Py) × List (String × Py)) :=
  let olds : Except String (List Py) :=
    match pyLookup mk "stop_sequences" with
    | Option.none => .ok []
    | some (.list l) => .ok l
    | some _ => .error "TypeError: can only concatenate list"
  match olds with
  | .error e => .error e
  | .ok olds =>
    let merged := olds ++ stop.map Py.str
    let mk1 := if merged.length > 0 then dictSet mk "stop_sequences" (.list merged) else mk
    if pyContains url "openai" then
      let k1 := renameKey mk1 "select_expert" "model"
      let k2 := renameKey k1 "max_tokens_to_generate" "max_tokens"
      let k3 := if dictHasKey k2 "process_prompt" then dictPop k2 "process_prompt" else k2
      .ok (k3, k3)
    else if pyContains url "api/v2/predict/generic" then
      let k1 := renameKey mk1 "model" "select_expert"
      let k2 := renameKey k1 "max_tokens" "max_tokens_to_generate"
      .ok (k2, k2)
    else if pyContains url "api/predict/generic" then
      let k1 := renameKey mk1 "model" "select_expert"
      let k2 := renameKey k1 "max_tokens" "max_tokens_to_generate"
      .ok (k2.map (fun kv => (kv.1, envelope kv.2)), k2)
    else .error ("Unsupported URL" ++ url)

/-- `SambaStudio._get_tuning_params`.  The source starts with
`_model_kwargs = self.model_kwargs or {}`: when the configured kwargs dict is
falsy (`None` or empty, both modelled as `[]`) a fresh dict is used and the
client state is untouched; otherwise the very same dict object is mutated, so
the second component returned here is the state of `self.model_kwargs` after
the call. -/
def get_tuning_params (url : String) (kwargs : List (String × Py)) (stop : List String) :
    Except String (List (String × Py) × List (String × Py)) :=
  match tuningCore url kwargs stop with
  | .error e => .error e
  | .ok (tp, mutated) => .ok (tp, if kwargs.isEmpty then kwargs else mutated)

/-- A server-sent event as surfaced by `sseclient`: the event name, the raw
`data` payload, and the oracle result of `json.loads` on that payload. -/
structure SSEvent where
  name : String
  dataRaw : String
  dataJson : Option Py

/-- A line of a newline-delimited streaming body, with its oracle parse. -/
structure LineData where
  raw : String
  json : Option Py

/-- A fixed transport trace for one streaming call: HTTP status plus the body
seen as a sequence of SSE events (consumed by the OpenAI-compatible variant)
or as a sequence of lines (consumed by the generic variants). -/
structure StreamTrace where
  status : Nat
  events : List SSEvent
  lns : List LineData

/-- Terminal failures of `SambaStudio._process_stream_response` /
`SambaStudio._handle_request` / `SambaStudio._call`. -/
inductive StuErr where
  | sseError (status : Nat) (data : String)
  | chunkError (data : String)
  | lineError (raw : String)
  | unsupportedUrl (url : String)
  | requestError (msg : String)

/-- Run a per-element decoding step over a trace, collecting the deltas
yielded before the generator (if ever) raises: Python generators stop at the
first uncaught exception, so elements after a failing one are never reached. -/
def runStream (step : α → List String × Option ε) : List α → List String × Option ε
  | [] => ([], Option.none)
  | x :: xs =>
    match step x with
    | (ds, some e) => (ds, some e)
    | (ds, Option.none) =>
      let (ds', e) := runStream step xs
      (ds ++ ds', e)

/-- One SSE event of the OpenAI-compatible branch of
`SambaStudio._process_stream_response`: `error_event` raises (outside the
`try`, carrying status code and payload); `"[DONE]"` is skipped; otherwise the
payload is parsed, a truthy `error` field raises, and
`choices[0].delta.content` is yielded — an empty `choices` list yields the
empty-string delta.  Every exception inside the `try` is re-raised as the
generic content-chunk error carrying the event data. -/
def studioOpenAIStep (status : Nat) (ev : SSEvent) : List String × Option StuErr :=
  if ev.name = "error_event" then ([], some (.sseError status ev.dataRaw))
  else if ev.dataRaw = "[DONE]" then ([], Option.none)
  else
    match ev.dataJson with
    | Option.none => ([], some (.chunkError ev.dataRaw))
    | some d =>
      match pyGetKey d "error" with
      | .error _ => ([], some (.chunkError ev.dataRaw))
      | .ok ge =>
        if truthyOpt ge then ([], some (.chunkError ev.dataRaw))
        else
          match pySubKey d "choices" with
          | .error _ => ([], some (.chunkError ev.dataRaw))
          | .ok cs =>
            match pyLen cs with
            | .error _ => ([], some (.chunkError ev.dataRaw))
            | .ok n =>
              if n > 0 then
                match (pySubIdx cs 0).bind (fun c0 => (pySubKey c0 "delta").bind
                    (fun dl => pySubKey dl "content")) with
                | .ok (.str s) => ([s], Option.none)
                | .ok _ => ([], some (.chunkError ev.dataRaw))
                | .error _ => ([], some (.chunkError ev.dataRaw))
              else ([""], Option.none)

/-- One line of the generic-v2 branch: parse, yield
`result.items[0].value.stream_token`; any failure raises carrying the line. -/
def v2LineStep (ln : LineData) : List String × Option StuErr :=
  match ln.json with
  | Option.none => ([], some (.lineError ln.raw))
  | some d =>
    match (pySubKey d "result").bind (fun r => (pySubKey r "items").bind
        (fun it => (pySubIdx it 0).bind (fun i0 => (pySubKey i0 "value").bind
          (fun v => pySubKey v "stream_token")))) with
    | .ok (.str s) => ([s], Option.none)
    | .ok _ => ([], some (.lineError ln.raw))
    | .error _ => ([], some (.lineError ln.raw))

/-- One line of the generic-v1 branch: field path `result.responses[0].stream_token`. -/
def v1LineStep (ln : LineData) : List String × Option StuErr :=
  match ln.json with
  | Option.none => ([], some (.lineError ln.raw))
  | some d =>
    match (pySubKey d "result").bind (fun r => (pySubKey r "responses").bind
        (fun rs => (pySubIdx rs 0).bind (fun r0 => pySubKey r0 "stream_token"))) with
    | .ok (.str s) => ([s], Option.none)
    | .ok _ => ([], some (.lineError ln.raw))
    | .error _ => ([], some (.lineError ln.raw))

/-- `SambaStudio._process_stream_response` over a fixed transport trace. -/
def process_stream_response (url : String) (tr : StreamTrace) :
    List String × Option StuErr :=
  if pyContains url "openai" then runStream (studioOpenAIStep tr.status) tr.events
  else if pyContains url "api/v2/predict/generic" then runStream v2LineStep tr.lns
  else if pyContains url "api/predict/generic" then runStream v1LineStep tr.lns
  else ([], some (.unsupportedUrl url))

/-- `SambaStudio._call` in its streaming configuration (`self.streaming = True`):
`completion = ""`, then `completion += chunk.text` for every streamed chunk;
an exception raised by the generator propagates and no string is returned. -/
def studio_call_streaming (url : String) (tr : StreamTrace) : Except StuErr String :=
  match process_stream_response url tr with
  | (_, some e) => .error e
  | (ds, Option.none) => .ok (ds.foldl (fun acc t => acc ++ t) "")

/-- Errors of the `SambaNovaCloud` streaming path.  Both mid-loop raises end as
the generic `Exception` built from the `chunk` dict, which carries the event
name, the raw data and the HTTP status code. -/
inductive CloudErr where
  | httpError (status : Nat) (body : String)
  | contentError (eventName : String) (dataRaw : String) (status : Nat)

/-- `data['choices'][0]['finish_reason']` on a parsed cloud payload. -/
def cloudFinishReason (d : Py) : Except PyExn Py :=
  (pySubKey d "choices").bind (fun cs => (pySubIdx cs 0).bind
    (fun c0 => pySubKey c0 "finish_reason"))

/-- `data['choices'][0]['delta']['content']` on a parsed cloud payload. -/
def cloudDeltaContent (d : Py) : Except PyExn Py :=
  (pySubKey d "choices").bind (fun cs => (pySubIdx cs 0).bind
    (fun c0 => (pySubKey c0 "delta").bind (fun dl => pySubKey dl "content")))

/-- One SSE event of `SambaNovaCloud._handle_nlp_predict_stream`.  Note two
facts of the source: an `error_event` event name only sets the never-read
`close_conn` flag, so processing of its payload continues normally; and
`chunk.get('error')` can never be truthy because `chunk` is freshly built with
only the keys `event`, `data` and `status_code` — both are modelled as the
no-ops they are.  A `"[DONE]"` payload skips the body and the loop continues;
a payload with usage statistics, or whose first choice has a non-null
`finish_reason`, yields nothing; otherwise `choices[0].delta.content` is
yielded.  Every exception inside the `try` (including the truthy-`error`
raise) is re-raised as the generic content-chunk `Exception` carrying the
`chunk` dict. -/
def cloudStep (status : Nat) (ev : SSEvent) : List String × Option CloudErr :=
  if ev.dataRaw = "[DONE]" then ([], Option.none)
  else
    match ev.dataJson with
    | Option.none => ([], some (.contentError ev.name ev.dataRaw status))
    | some d =>
      match pyGetKey d "error" with
      | .error _ => ([], some (.contentError ev.name ev.dataRaw status))
      | .ok ge =>
        if truthyOpt ge then ([], some (.contentError ev.name ev.dataRaw status))
        else
          match pyGetKey d "usage" with
          | .error _ => ([], some (.contentError ev.name ev.dataRaw status))
          | .ok us =>
            if optIsNone us then
              match cloudFinishReason d with
              | .error _ => ([], some (.contentError ev.name ev.dataRaw status))
              | .ok fr =>
                if optIsNone (some fr) then
                  match cloudDeltaContent d with
                  | .ok (.str s) => ([s], Option.none)
                  | .ok _ => ([], some (.contentError ev.name ev.dataRaw status))
                  | .error _ => ([], some (.contentError ev.name ev.dataRaw status))
                else ([], Option.none)
            else ([], Option.none)

/-- The event-consuming loop of `SambaNovaCloud._handle_nlp_predict_stream`
over a fixed transport trace (a non-200 status raises before any event is
processed). -/
def handle_nlp_predict_stream (status : Nat) (body : String) (events : List SSEvent) :
    List String × Option CloudErr :=
  if status ≠ 200 then ([], some (.httpError status body))
  else runStream (cloudStep status) events

/-- `SambaNovaCloud._handle_stream_request` (the buffered cloud call):
concatenates every streamed delta in order; a streaming failure propagates
(re-wrapped in message text only by `_stream` and `_call`) and no string is
returned. -/
def handle_stream_request (status : Nat) (body : String) (events : List SSEvent) :
    Except CloudErr String :=
  match handle_nlp_predict_stream status body events with
  | (_, some e) => .error e
  | (ds, Option.none) => .ok (ds.foldl (fun acc t => acc ++ t) "")

/-- A buffered HTTP response: raw text plus the oracle result of `response.json()`. -/
structure HttpResponse where
  text : String
  json : Option Py

/-- Failures of `SambaStudio._process_response`. -/
inductive RespErr where
  | jsonDecodeError (raw : String)
  | py (e : PyExn)
  | unsupportedUrl (url : String)

/-- `SambaStudio._process_response`: extract the completion from the
variant-specific JSON path.  A body that is not valid JSON raises a
`RuntimeError` whose message embeds the raw response text; a missing path
raises the bare `KeyError` / `IndexError` / `TypeError` of the subscript
chain, which does not carry the body. -/
def process_response (url : String) (resp : HttpResponse) : Except RespErr Py :=
  match resp.json with
  | Option.none => .error (.jsonDecodeError resp.text)
  | some d =>
    if pyContains url "openai" then
      match (pySubKey d "choices").bind (fun cs => (pySubIdx cs 0).bind
          (fun c0 => (pySubKey c0 "message").bind (fun m => pySubKey m "content"))) with
      | .ok v => .ok v
      | .error e => .error (.py e)
    else if pyContains url "api/v2/predict/generic" then
      match (pySubKey d "items").bind (fun it => (pySubIdx it 0).bind
          (fun i0 => (pySubKey i0 "value").bind (fun v => pySubKey v "completion"))) with
      | .ok v => .ok v
      | .error e => .error (.py e)
    else if pyContains url "api/predict/generic" then
      match (pySubKey d "predictions").bind (fun ps => (pySubIdx ps 0).bind
          (fun p0 => pySubKey p0 "completion")) with
      | .ok v => .ok v
      | .error e => .error (.py e)
    else .error (.unsupportedUrl url)

/-- The prompt argument of the client calls: a string or a list of strings. -/
inductive PromptArg where
  | str (s : String)
  | list (xs : List String)

/-- The structured conversation wrapper serialised into the prompt when
`process_prompt` is set (generic v1/v2 branches of `_handle_request`). -/
def conversationPrompt (p0 : String) : String :=
  jsonDumps (.dict
    [("conversation_id", .str "sambaverse-conversation-id"),
     ("messages", .list
       [.dict [("message_id", .none), ("role", .str "user"), ("content", .str p0)]])])

/-- Payload/header construction of `SambaStudio._handle_request` (the HTTP
send and status check belong to the transport).  A string prompt is replaced
by the one-element list holding it, and each branch then reads `prompt[0]`.
Returns `(body, headers)`. -/
def handle_request_data (url : String) (kwargs : List (String × Py)) (apiKey : String)
    (prompt : PromptArg) (stop : List String) (streaming : Bool) :
    Except StuErr (Py × List (String × Py)) :=
  let plist := match prompt with
    | .str s => [s]
    | .list xs => xs
  match plist with
  | [] => .error (.requestError "IndexError: list index out of range")
  | p0 :: _ =>
    match get_tuning_params url kwargs stop with
    | .error e => .error (.requestError e)
    | .ok (params, _) =>
      if pyContains url "openai" then
        let messages := Py.list [.dict [("role", .str "user"), ("content", .str p0)]]
        let data := dictSet (dictSet [] "messages" messages) "stream" (.bool streaming)
        let data := params.foldl (fun d kv => dictSet d kv.1 kv.2) data
        let data := data.filter (fun kv => !(optIsNone (some kv.2)))
        .ok (.dict data,
          [("Authorization", .str ("Bearer " ++ apiKey)),
           ("Content-Type", .str "application/json")])
      else if pyContains url "api/v2/predict/generic" then
        let pstr :=
          if truthyOpt (pyLookup params "process_prompt") then conversationPrompt p0
          else p0
        let items := Py.list [.dict [("id", .str "item0"), ("value", .str pstr)]]
        let params := params.filter (fun kv => !(optIsNone (some kv.2)))
        .ok (.dict [("items", items), ("params", .dict params)],
          [("key", .str apiKey)])
      else if pyContains url "api/predict/generic" then
        let pstrE : Except StuErr String :=
          match pyLookup params "process_prompt" with
          | Option.none => .ok p0
          | some pp =>
            if truthy pp then
              match pyGetKey pp "value" with
              | .error _ => .error (.requestError "AttributeError: no attribute get")
              | .ok (some (.str s)) =>
                if s = "True" then .ok (conversationPrompt p0) else .ok p0
              | .ok _ => .ok p0
            else .ok p0
        match pstrE with
        | .error e => .error e
        | .ok pstr =>
          if streaming then
            .ok (.dict [("instance", .str pstr), ("params", .dict params)],
              [("key", .str apiKey)])
          else
            .ok (.dict [("instances", .list [.str pstr]), ("params", .dict params)],
              [("key", .str apiKey)])
      else .error (.unsupportedUrl url)

/-- The call-time configuration of a `SambaNovaCloud` client that feeds the
request payload (`temperature`, `top_p` and `stream_options` pass through as
opaque attribute values). -/
structure CloudCfg where
  max_tokens : Int
  stop_tokens : List String
  model : String
  temperature : Py
  top_p : Py
  top_k : Int
  stream_api : Bool
  stream_options : Py

/-- Request payload of `SambaNovaCloud._handle_nlp_predict_stream`: the prompt
is used as a JSON message list when it parses as JSON (oracle `promptJson`),
else wrapped as a single user message; an empty (falsy) call-time `stop` list
is replaced by the configured `stop_tokens`, otherwise the call-time list is
used as-is. -/
def cloud_request_data (cfg : CloudCfg) (prompt : String) (promptJson : Option Py)
    (stop : List String) : List (String × Py) :=
  let formatted := match promptJson with
    | some j => j
    | Option.none => Py.list [.dict [("role", .str "user"), ("content", .str prompt)]]
  let stop1 := if stop.isEmpty then cfg.stop_tokens else stop
  [("messages", formatted),
   ("max_tokens", .int cfg.max_tokens),
   ("stop", .list (stop1.map Py.str)),
   ("model", .str cfg.model),
   ("temperature", cfg.temperature),
   ("top_p", cfg.top_p),
   ("top_k", .int cfg.top_k),
   ("stream", .bool cfg.stream_api),
   ("stream_options", cfg.stream_options)]

/-! Concrete inputs used by the witnesses and counterexamples below. -/

/-- An OpenAI-compatible SambaStudio URL. -/
def urlOpenAIEx : String := "https://host/api/openai/v1/chat/completions"

/-- A generic-v2 SambaStudio URL. -/
def urlV2Ex : String := "https://host/api/v2/predict/generic/endpoint-id"

/-- A generic-v1 SambaStudio URL. -/
def urlV1Ex : String := "https://host/api/predict/generic/endpoint-id"

/-- A URL containing `stream` but none of the three dispatch substrings. -/
def urlStreamEx : String := "https://host/stream/endpoint-id"

/-- A generic-v1 streaming URL whose `stream` tail has no trailing slash. -/
def urlTailStream : String := "https://host/api/predict/generic/stream"

/-- Parsed payload of the first content event of the cloud trace. -/
def cloudJson1 : Py :=
  .dict [("choices", .list
    [.dict [("delta", .dict [("content", .str "Hi")]), ("finish_reason", .none)]])]

/-- Parsed payload of the second content event of the cloud trace. -/
def cloudJson2 : Py :=
  .dict [("choices", .list
    [.dict [("delta", .dict [("content", .str " there")]), ("finish_reason", .none)]])]

/-- Parsed payload of the final informational event: non-null finish reason
and usage statistics. -/
def cloudJson3 : Py :=
  .dict [("choices", .list [.dict [("finish_reason", .str "stop")]]),
         ("usage", .dict [("total_tokens", .int 7)])]

/-- `data: {"choices":[{"delta":{"content":"Hi"},"finish_reason":null}]}`. -/
def cloudEv1 : SSEvent :=
  ⟨"message",
   "\x7b\"choices\":[\x7b\"delta\":\x7b\"content\":\"Hi\"\x7d,\"finish_reason\":null\x7d]\x7d",
   some cloudJson1⟩

/-- `data: {"choices":[{"delta":{"content":" there"},"finish_reason":null}]}`. -/
def cloudEv2 : SSEvent :=
  ⟨"message",
   "\x7b\"choices\":[\x7b\"delta\":\x7b\"content\":\" there\"\x7d,\"finish_reason\":null\x7d]\x7d",
   some cloudJson2⟩

/-- `data: {"choices":[{"finish_reason":"stop"}],"usage":{...}}`. -/
def cloudEv3 : SSEvent :=
  ⟨"message",
   "\x7b\"choices\":[\x7b\"finish_reason\":\"stop\"\x7d],\"usage\":\x7b\"total_tokens\":7\x7d\x7d",
   some cloudJson3⟩

/-- `data: [DONE]` (the sentinel does not parse as JSON). -/
def cloudEvDone : SSEvent := ⟨"message", "[DONE]", Option.none⟩

/-- An SSE event of kind `error_event` whose payload is nonetheless a
well-formed content chunk. -/
def cloudEvError : SSEvent :=
  ⟨"error_event",
   "\x7b\"choices\":[\x7b\"delta\":\x7b\"content\":\"x\"\x7d,\"finish_reason\":null\x7d]\x7d",
   some (.dict [("choices", .list
     [.dict [("delta", .dict [("content", .str "x")]), ("finish_reason", .none)]])])⟩

/-- A cloud client configuration with `stop_tokens = ["<eot>"]`. -/
def cloudCfgEx : CloudCfg :=
  ⟨1024, ["<eot>"], "llama3-8b", .int 0, .int 0, 1, true,
   .dict [("include_usage", .bool true)]⟩

/-- A generic-v2 line carrying stream token `"A"`. -/
def lineA : LineData :=
  ⟨"\x7b\"result\":\x7b\"items\":[\x7b\"value\":\x7b\"stream_token\":\"A\"\x7d\x7d]\x7d\x7d",
   some (.dict [("result", .dict [("items", .list
     [.dict [("value", .dict [("stream_token", .str "A")])]])])])⟩

/-- A generic-v2 line carrying stream token `"B"`. -/
def lineB : LineData :=
  ⟨"\x7b\"result\":\x7b\"items\":[\x7b\"value\":\x7b\"stream_token\":\"B\"\x7d\x7d]\x7d\x7d",
   some (.dict [("result", .dict [("items", .list
     [.dict [("value", .dict [("stream_token", .str "B")])]])])])⟩

/-- A fixed generic-v2 streaming trace with tokens `"A"` then `"B"`. -/
def traceV2 : StreamTrace := ⟨200, [], [lineA, lineB]⟩

/-- Length of the list stored under `key` (observer used to compare dicts). -/
def stopKeyLen (kvs : List (String × Py)) (key : String) : Nat :=
  match pyLookup kvs key with
  | some (.list l) => l.length
  | _ => 0

/-! Helper lemmas. -/

/-- Lookup after in-place set of the same key. -/
theorem pyLookup_dictSet_self (d : List (String × Py)) (k : String) (v : Py) :
    pyLookup (dictSet d k v) k = some v := by
  induction d with
  | nil => simp [dictSet, pyLookup]
  | cons kv rest ih =>
    obtain ⟨k', w⟩ := kv
    by_cases h : k' = k
    · simp [dictSet, h, pyLookup]
    · simp [dictSet, h, pyLookup, ih]

/-- Set does not disturb other keys. -/
theorem pyLookup_dictSet_ne (d : List (String × Py)) (k k' : String) (v : Py)
    (h : k' ≠ k) : pyLookup (dictSet d k v) k' = pyLookup d k' := by
  induction d with
  | nil => simp [dictSet, pyLookup, Ne.symm h]
  | cons kv rest ih =>
    obtain ⟨k0, w⟩ := kv
    by_cases h0 : k0 = k
    · simp [dictSet, pyLookup, h0, Ne.symm h]
    · by_cases h1 : k0 = k'
      · simp [dictSet, pyLookup, h0, h1, h]
      · simp [dictSet, pyLookup, h0, h1, ih]

/-- Pop does not disturb other keys. -/
theorem pyLookup_dictPop_ne (d : List (String × Py)) (k k' : String)
    (h : k' ≠ k) : pyLookup (dictPop d k) k' = pyLookup d k' := by
  induction d with
  | nil => simp [dictPop]
  | cons kv rest ih =>
    obtain ⟨k0, w⟩ := kv
    by_cases h0 : k0 = k
    · simp [dictPop, pyLookup, h0, Ne.symm h]
    · by_cases h1 : k0 = k'
      · simp [dictPop, pyLookup, h0, h1, h]
      · simp [dictPop, pyLookup, h0, h1, ih]

/-- The pop/assign rename does not disturb keys other than `old` and `new`. -/
theorem pyLookup_renameKey_ne (d : List (String × Py)) (old new k : String)
    (h1 : k ≠ old) (h2 : k ≠ new) :
    pyLookup (renameKey d old new) k = pyLookup d k := by
  unfold renameKey
  match hv : pyLookup d old with
  | Option.none => rfl
  | some v =>
    rw [pyLookup_dictSet_ne _ _ _ _ h2, pyLookup_dictPop_ne _ _ _ h1]

/-- The guarded `process_prompt` pop does not disturb other keys. -/
theorem pyLookup_condPop_ne (d : List (String × Py)) (k k' : String)
    (h : k' ≠ k) :
    pyLookup (if dictHasKey d k then dictPop d k else d) k' = pyLookup d k' := by
  by_cases hk : dictHasKey d k
  · rw [if_pos hk, pyLookup_dictPop_ne _ _ _ h]
  · rw [if_neg hk]

/-- Lookup through the generic-v1 envelope comprehension. -/
theorem pyLookup_map_envelope (d : List (String × Py)) (k : String) :
    pyLookup (d.map (fun kv => (kv.1, envelope kv.2))) k
      = (pyLookup d k).map envelope := by
  induction d with
  | nil => simp [pyLookup]
  | cons kv rest ih =>
    obtain ⟨k0, w⟩ := kv
    by_cases h : k0 = k
    · simp [pyLookup, h]
    · simp [pyLookup, h, ih]

/-- A decimal digit character reads back to its value. -/
theorem digitVal_digitChar {n : Nat} (h : n < 10) :
    digitVal (digitChar n) = some n := by
  interval_cases n <;> decide

/-- The accumulating reader distributes over append. -/
theorem parseNatFrom_append (xs ys : List Char) (acc : Nat) :
    parseNatFrom acc (xs ++ ys)
      = match parseNatFrom acc xs with
        | some m => parseNatFrom m ys
        | Option.none => Option.none := by
  induction xs generalizing acc with
  | nil => simp [parseNatFrom]
  | cons c cs ih =>
    cases hd : digitVal c with
    | none => simp [parseNatFrom, hd]
    | some d => simp [parseNatFrom, hd, ih]

/-- Reading back the decimal form of `n` from accumulator `acc`. -/
theorem parseNatFrom_natToStr (n : Nat) :
    ∀ acc, parseNatFrom acc (natToStr n)
      = some (acc * 10 ^ (natToStr n).length + n) := by
  induction n using Nat.strong_induction_on with
  | _ n ih =>
    intro acc
    by_cases h : n < 10
    · rw [natToStr, dif_pos h]
      simp [parseNatFrom, digitVal_digitChar h]
    · rw [natToStr, dif_neg h]
      rw [parseNatFrom_append]
      rw [ih (n / 10) (Nat.div_lt_self (by omega) (by omega)) acc]
      have hm : n % 10 < 10 := Nat.mod_lt _ (by omega)
      simp only [parseNatFrom, digitVal_digitChar hm, List.length_append,
        List.length_singleton, Option.some.injEq]
      rw [pow_succ, ← Nat.mul_assoc]
      generalize acc * 10 ^ (natToStr (n / 10)).length = K
      omega

/-- The decimal form of a natural number is non-empty. -/
theorem natToStr_ne_nil (n : Nat) : natToStr n ≠ [] := by
  rw [natToStr]
  by_cases h : n < 10
  · rw [dif_pos h]; simp
  · rw [dif_neg h]; simp

/-- `parseNat` on a non-empty list is the accumulating reader from zero. -/
theorem parseNat_eq_from_zero (l : List Char) (h : l ≠ []) :
    parseNat l = parseNatFrom 0 l := by
  match l with
  | [] => exact absurd rfl h
  | c :: cs => rfl

/-- `int(str(n))` round-trips for naturals. -/
theorem parseNat_natToStr (n : Nat) : parseNat (natToStr n) = some n := by
  rw [parseNat_eq_from_zero _ (natToStr_ne_nil n), parseNatFrom_natToStr n 0]
  simp

/-- The decimal form starts with a digit character. -/
theorem natToStr_head_digit (n : Nat) :
    ∃ d t, natToStr n = digitChar d :: t ∧ d < 10 := by
  induction n using Nat.strong_induction_on with
  | _ n ih =>
    by_cases h : n < 10
    · exact ⟨n, [], by rw [natToStr, dif_pos h], h⟩
    · obtain ⟨d, t, hd, hlt⟩ := ih (n / 10) (Nat.div_lt_self (by omega) (by omega))
      refine ⟨d, t ++ [digitChar (n % 10)], ?_, hlt⟩
      rw [natToStr, dif_neg h, hd]
      simp

/-- A digit character is not the minus sign. -/
theorem digitChar_ne_minus {d : Nat} (h : d < 10) : digitChar d ≠ '-' := by
  interval_cases d <;> decide

/-- `int(str(n))` round-trips for integers (Python `str`/`int`). -/
theorem parseInt_intToStr (n : Int) : parseInt (intToStr n) = some n := by
  unfold intToStr
  by_cases h : n < 0
  · rw [if_pos h]
    show (parseNat (natToStr n.natAbs)).map (fun m => -(Int.ofNat m)) = some n
    rw [parseNat_natToStr]
    show some (-(Int.ofNat n.natAbs)) = some n
    rw [show -(Int.ofNat n.natAbs) = n by rw [Int.ofNat_eq_natCast]; omega]
  · rw [if_neg h]
    obtain ⟨d, t, hd, hlt⟩ := natToStr_head_digit n.toNat
    rw [hd]
    rw [show parseInt (digitChar d :: t)
        = (parseNat (digitChar d :: t)).map (fun m => Int.ofNat m) from by
      simp [parseInt, digitChar_ne_minus hlt]]
    rw [← hd, parseNat_natToStr]
    show some (Int.ofNat n.toNat) = some n
    rw [show Int.ofNat n.toNat = n by rw [Int.ofNat_eq_natCast]; omega]

/-- The generic-v1 envelope round-trips on primitive values: reading the
`value` string back through the declared `type` name recovers the value. -/
theorem prim_roundtrip (v : Py) (h : isPrim v = true) :
    parsePrim (typeName v) (pyStr v) = some v := by
  match v with
  | .int n =>
    simp only [typeName, pyStr, pyRepr, parsePrim, if_pos rfl]
    have hl : (String.mk (intToStr n)).toList = intToStr n := rfl
    rw [hl, parseInt_intToStr]
    rfl
  | .bool true => rfl
  | .bool false => rfl
  | .str s => rfl

/-- Replacing by the empty string never lengthens (any fuel). -/
theorem replCharsF_nil_le : ∀ (fuel : Nat) (s pat : List Char),
    (replCharsF fuel s pat []).length ≤ s.length := by
  intro fuel
  induction fuel with
  | zero => intro s pat; simp [replCharsF]
  | succ n ih =>
    intro s pat
    match s with
    | [] => simp [replCharsF]
    | c :: rest =>
      simp only [replCharsF]
      split
      · next hc =>
        have hrec := ih (List.drop (pat.length - 1) rest) pat
        simp only [List.nil_append, List.length_drop, List.length_cons] at hrec ⊢
        omega
      · have hrec := ih rest pat
        simp only [List.length_cons]
        omega

/-- Replacing by the empty string never lengthens. -/
theorem replChars_nil_le (s pat : List Char) :
    (replChars s pat []).length ≤ s.length :=
  replCharsF_nil_le s.length s pat

/-- Replacing an occurring pattern by the empty string strictly shortens
(fuel at least the length). -/
theorem replCharsF_nil_lt : ∀ (fuel : Nat) (s pat : List Char), pat ≠ [] →
    listHasSub s pat = true → s.length ≤ fuel →
    (replCharsF fuel s pat []).length < s.length := by
  intro fuel
  induction fuel with
  | zero =>
    intro s pat hp hs hf
    match s with
    | [] =>
      rw [listHasSub] at hs
      simp at hs
      exact absurd hs hp
    | c :: rest =>
      simp only [List.length_cons] at hf
      omega
  | succ n ih =>
    intro s pat hp hs hf
    match s with
    | [] =>
      rw [listHasSub] at hs
      simp at hs
      exact absurd hs hp
    | c :: rest =>
      simp only [replCharsF]
      split
      · next hc =>
        have hle := replCharsF_nil_le n (List.drop (pat.length - 1) rest) pat
        simp only [List.nil_append, List.length_drop, List.length_cons] at hle ⊢
        omega
      · next hc =>
        rw [listHasSub] at hs
        have hlm : leadMatch pat (c :: rest) = false := by
          by_contra hx
          exact hc ⟨hp, by simpa using hx⟩
        rw [hlm] at hs
        simp at hs
        have hrec := ih rest pat hp hs (by simp only [List.length_cons] at hf; omega)
        simp only [List.length_cons]
        omega

/-- Replacing an occurring pattern by the empty string strictly shortens. -/
theorem replChars_nil_lt (s pat : List Char) (hp : pat ≠ [])
    (hs : listHasSub s pat = true) :
    (replChars s pat []).length < s.length :=
  replCharsF_nil_lt s.length s pat hp hs le_rfl

/-- A successful `.get` implies the value was a dict. -/
theorem pyGetKey_ok_dict {v : Py} {k : String} {o : Option Py}
    (h : pyGetKey v k = .ok o) : ∃ kvs, v = Py.dict kvs ∧ pyLookup kvs k = o := by
  cases v with
  | dict kvs => exact ⟨kvs, rfl, by simpa [pyGetKey] using h⟩
  | none => simp [pyGetKey] at h
  | bool b => simp [pyGetKey] at h
  | int n => simp [pyGetKey] at h
  | str s => simp [pyGetKey] at h
  | list xs => simp [pyGetKey] at h

/-- A successful finish-reason subscript chain implies the payload was a dict. -/
theorem cloudFinishReason_ok_dict {j fr : Py}
    (h : cloudFinishReason j = .ok fr) : ∃ kvs, j = Py.dict kvs := by
  cases j with
  | dict kvs => exact ⟨kvs, rfl⟩
  | none => simp [cloudFinishReason, pySubKey, Except.bind] at h
  | bool b => simp [cloudFinishReason, pySubKey, Except.bind] at h
  | int n => simp [cloudFinishReason, pySubKey, Except.bind] at h
  | str s => simp [cloudFinishReason, pySubKey, Except.bind] at h
  | list xs => simp [cloudFinishReason, pySubKey, Except.bind] at h

/-- C1 (amended): decoding the four-event cloud trace yields exactly the
deltas `["Hi", " there"]` and ends without error; an event whose parsed
payload carries non-null usage statistics emits no delta; an event whose
first choice has a non-null finish reason emits no delta; a `"[DONE]"`
payload emits no delta and raises nothing (the stream then ends when the
event source is exhausted); and every other well-formed event emits
`choices[0].delta.content` as one delta. -/
theorem C1_cloud_stream_decoding :
    handle_nlp_predict_stream 200 "" [cloudEv1, cloudEv2, cloudEv3, cloudEvDone]
      = (["Hi", " there"], Option.none)
    ∧ (∀ st ev j us, ev.dataJson = some j → pyGetKey j "usage" = .ok us →
        optIsNone us = false → (cloudStep st ev).1 = [])
    ∧ (∀ st ev j fr, ev.dataJson = some j → cloudFinishReason j = .ok fr →
        optIsNone (some fr) = false → (cloudStep st ev).1 = [])
    ∧ (∀ st ev, ev.dataRaw = "[DONE]" → cloudStep st ev = ([], Option.none))
    ∧ (∀ st ev j ge us s, ev.dataJson = some j → ev.dataRaw ≠ "[DONE]" →
        pyGetKey j "error" = .ok ge → truthyOpt ge = false →
        pyGetKey j "usage" = .ok us → optIsNone us = true →
        cloudFinishReason j = .ok .none →
        cloudDeltaContent j = .ok (.str s) →
        cloudStep st ev = ([s], Option.none)) := by
  refine ⟨rfl, ?_, ?_, ?_, ?_⟩
  · intro st ev j us hj hu hns
    obtain ⟨kvs, rfl, hlk⟩ := pyGetKey_ok_dict hu
    by_cases hD : ev.dataRaw = "[DONE]"
    · simp [cloudStep, hD]
    · simp only [cloudStep, if_neg hD, hj, pyGetKey, hlk, hns]
      split <;> rfl
  · intro st ev j fr hj hfr hne
    obtain ⟨kvs, rfl⟩ := cloudFinishReason_ok_dict hfr
    by_cases hD : ev.dataRaw = "[DONE]"
    · simp [cloudStep, hD]
    · simp only [cloudStep, if_neg hD, hj, pyGetKey, hfr, hne]
      split
      · rfl
      · split <;> rfl
  · intro st ev hD
    simp [cloudStep, hD]
  · intro st ev j ge us s hj hD hge htr hu hun hfr hdc
    obtain ⟨kvs, rfl, hlke⟩ := pyGetKey_ok_dict hge
    have hlku : pyLookup kvs "usage" = us := by simpa [pyGetKey] using hu
    simp only [cloudStep, if_neg hD, hj, pyGetKey, hlke, htr, hlku, hun, hfr, hdc]
    simp [optIsNone]

/-- C1 counterexample: the `"[DONE]"` sentinel does not terminate the cloud
decoding loop — a content event placed after it is still decoded and its
delta is emitted, where the claim requires the stream to have terminated. -/
theorem C1_events_after_done_still_decoded :
    handle_nlp_predict_stream 200 "" [cloudEvDone, cloudEv1]
      = (["Hi"], Option.none) := rfl

/-- C1 witness: the content clause of the amended statement applied to the
first concrete trace event. -/
theorem C1_cloud_stream_decoding_witness :
    cloudStep 200 cloudEv1 = (["Hi"], Option.none) :=
  C1_cloud_stream_decoding.2.2.2.2 200 cloudEv1 cloudJson1 Option.none Option.none "Hi"
    rfl (by decide) rfl rfl rfl rfl rfl rfl

/-- C3: evaluation of the parameter mapping at a failing input.  A client
configured with non-empty `model_kwargs` aliases that dict in
`_get_tuning_params` (`_model_kwargs = self.model_kwargs or {}`), so the
merged stop sequences are written back into the client's configured state,
and a second call with identical arguments returns different mapped
parameters (`stop_sequences` accumulates). -/
theorem C3_mapping_mutates_client_state :
    get_tuning_params urlOpenAIEx [("max_tokens", .int 10)] ["\n"]
      = .ok ([("max_tokens", .int 10), ("stop_sequences", .list [.str "\n"])],
             [("max_tokens", .int 10), ("stop_sequences", .list [.str "\n"])])
    ∧ get_tuning_params urlOpenAIEx
        [("max_tokens", .int 10), ("stop_sequences", .list [.str "\n"])] ["\n"]
      = .ok ([("max_tokens", .int 10), ("stop_sequences", .list [.str "\n", .str "\n"])],
             [("max_tokens", .int 10), ("stop_sequences", .list [.str "\n", .str "\n"])])
    ∧ stopKeyLen [("max_tokens", .int 10), ("stop_sequences", .list [.str "\n"])]
        "stop_sequences" = 1
    ∧ stopKeyLen [("max_tokens", .int 10),
        ("stop_sequences", .list [.str "\n", .str "\n"])] "stop_sequences" = 2 :=
  ⟨rfl, rfl, rfl, rfl⟩

/-- C4: evaluation at the failing input.  For the cloud variant an SSE event
of kind `error_event` whose payload is a well-formed content chunk is decoded
normally: the delta `"x"` is emitted and no failure is raised (the source only
sets the never-read `close_conn` flag), where the claim requires a
`StreamProtocolError` and no delta. -/
theorem C4_cloud_error_event_yields_delta :
    handle_nlp_predict_stream 200 "" [cloudEvError] = (["x"], Option.none) := rfl

/-- C10: for every studio variant (the dispatch is by URL substring, so the
equality holds for every URL), a prompt supplied as a list of strings
contributes only its first element to the outbound payload — the remaining
elements are silently ignored — and a single string behaves exactly as its
one-element list. -/
theorem C10_prompt_first_element_only (url : String) (kwargs : List (String × Py))
    (apiKey : String) (stop : List String) (streaming : Bool) (p : String)
    (rest : List String) :
    handle_request_data url kwargs apiKey (.list (p :: rest)) stop streaming
      = handle_request_data url kwargs apiKey (.list [p]) stop streaming
    ∧ handle_request_data url kwargs apiKey (.str p) stop streaming
      = handle_request_data url kwargs apiKey (.list [p]) stop streaming :=
  ⟨rfl, rfl⟩

/-- C2 (amended): for the three studio variants the stop-sequence list placed
in the mapped parameters is the concatenation of the stop sequences found in
`model_kwargs` at call time (for a first call, the construction-configured
list) with the call-time list, in that order, duplicates allowed — enveloped
for generic v1; for the cloud variant the call-time list replaces the
configured `stop_tokens` whenever it is non-empty, and the configured list is
used only when the call-time list is absent or empty. -/
theorem C2_stop_sequence_merge :
    (∀ url kwargs stop olds tp st,
        pyContains url "openai" = true →
        pyLookup kwargs "stop_sequences" = some (.list olds) →
        (olds ++ stop.map Py.str).length > 0 →
        get_tuning_params url kwargs stop = .ok (tp, st) →
        pyLookup tp "stop_sequences" = some (.list (olds ++ stop.map Py.str)))
    ∧ (∀ url kwargs stop olds tp st,
        pyContains url "openai" = false →
        pyContains url "api/v2/predict/generic" = true →
        pyLookup kwargs "stop_sequences" = some (.list olds) →
        (olds ++ stop.map Py.str).length > 0 →
        get_tuning_params url kwargs stop = .ok (tp, st) →
        pyLookup tp "stop_sequences" = some (.list (olds ++ stop.map Py.str)))
    ∧ (∀ url kwargs stop olds tp st,
        pyContains url "openai" = false →
        pyContains url "api/v2/predict/generic" = false →
        pyContains url "api/predict/generic" = true →
        pyLookup kwargs "stop_sequences" = some (.list olds) →
        (olds ++ stop.map Py.str).length > 0 →
        get_tuning_params url kwargs stop = .ok (tp, st) →
        pyLookup tp "stop_sequences" = some (envelope (.list (olds ++ stop.map Py.str))))
    ∧ (∀ cfg prompt pj stop, stop ≠ ([] : List String) →
        pyLookup (cloud_request_data cfg prompt pj stop) "stop"
          = some (.list (stop.map Py.str)))
    ∧ (∀ cfg prompt pj,
        pyLookup (cloud_request_data cfg prompt pj []) "stop"
          = some (.list (cfg.stop_tokens.map Py.str))) := by
  refine ⟨?_, ?_, ?_, ?_, ?_⟩
  · intro url kwargs stop olds tp st hurl hlk hlen hok
    simp only [get_tuning_params, tuningCore, hlk] at hok
    rw [if_pos hlen] at hok
    simp [hurl] at hok
    obtain ⟨htp, -⟩ := hok
    subst htp
    rw [pyLookup_condPop_ne _ _ _ (by decide),
        pyLookup_renameKey_ne _ _ _ _ (by decide) (by decide),
        pyLookup_renameKey_ne _ _ _ _ (by decide) (by decide),
        pyLookup_dictSet_self]
  · intro url kwargs stop olds tp st hno hurl hlk hlen hok
    simp only [get_tuning_params, tuningCore, hlk] at hok
    rw [if_pos hlen] at hok
    simp [hno, hurl] at hok
    obtain ⟨htp, -⟩ := hok
    subst htp
    rw [pyLookup_renameKey_ne _ _ _ _ (by decide) (by decide),
        pyLookup_renameKey_ne _ _ _ _ (by decide) (by decide),
        pyLookup_dictSet_self]
  · intro url kwargs stop olds tp st hno hno2 hurl hlk hlen hok
    simp only [get_tuning_params, tuningCore, hlk] at hok
    rw [if_pos hlen] at hok
    simp [hno, hno2, hurl] at hok
    obtain ⟨htp, -⟩ := hok
    subst htp
    rw [pyLookup_map_envelope,
        pyLookup_renameKey_ne _ _ _ _ (by decide) (by decide),
        pyLookup_renameKey_ne _ _ _ _ (by decide) (by decide),
        pyLookup_dictSet_self]
    rfl
  · intro cfg prompt pj stop hst
    match stop with
    | [] => exact absurd rfl hst
    | s0 :: srest => simp [cloud_request_data, pyLookup, List.isEmpty]
  · intro cfg prompt pj
    simp [cloud_request_data, pyLookup, List.isEmpty]

/-- C2 counterexample: for the cloud variant, a client configured with
`stop_tokens = ["<eot>"]` and a call supplying `["\n"]` sends exactly
`["\n"]` on the wire (one entry), not the claimed concatenation
`["<eot>", "\n"]` (two entries). -/
theorem C2_cloud_call_stop_replaces_configured :
    pyLookup (cloud_request_data cloudCfgEx "hi" Option.none ["\n"]) "stop"
      = some (.list [.str "\n"])
    ∧ stopKeyLen (cloud_request_data cloudCfgEx "hi" Option.none ["\n"]) "stop" = 1 :=
  ⟨rfl, rfl⟩

/-- C2 witness: the generic-v2 clause applied to a client whose kwargs hold
`stop_sequences = ["<eot>"]` and a call supplying `["\n"]`. -/
theorem C2_stop_sequence_merge_witness :
    get_tuning_params urlV2Ex [("stop_sequences", .list [.str "<eot>"])] ["\n"]
      = .ok ([("stop_sequences", .list [.str "<eot>", .str "\n"])],
             [("stop_sequences", .list [.str "<eot>", .str "\n"])])
    ∧ pyLookup [("stop_sequences", .list [.str "<eot>", .str "\n"])] "stop_sequences"
      = some (.list ([.str "<eot>"] ++ ["\n"].map Py.str)) := by
  refine ⟨rfl, ?_⟩
  exact C2_stop_sequence_merge.2.1 urlV2Ex [("stop_sequences", .list [.str "<eot>"])]
    ["\n"] [.str "<eot>"] [("stop_sequences", .list [.str "<eot>", .str "\n"])]
    [("stop_sequences", .list [.str "<eot>", .str "\n"])]
    (by decide) (by decide) rfl (by decide) rfl

/-- C5: for every fixed transport trace, the buffered call (streaming
configuration) of either client returns exactly the in-order concatenation of
the deltas the streaming decoder yields over that trace, and when the decoder
fails the error propagates and no (partial) string is returned. -/
theorem C5_buffered_call_concatenates_deltas :
    (∀ url tr ds, process_stream_response url tr = (ds, Option.none) →
        studio_call_streaming url tr = .ok (String.join ds))
    ∧ (∀ url tr ds e, process_stream_response url tr = (ds, some e) →
        studio_call_streaming url tr = .error e)
    ∧ (∀ status body evs ds,
        handle_nlp_predict_stream status body evs = (ds, Option.none) →
        handle_stream_request status body evs = .ok (String.join ds))
    ∧ (∀ status body evs ds e,
        handle_nlp_predict_stream status body evs = (ds, some e) →
        handle_stream_request status body evs = .error e) := by
  refine ⟨?_, ?_, ?_, ?_⟩
  · intro url tr ds h
    simp [studio_call_streaming, h, String.join]
  · intro url tr ds e h
    simp [studio_call_streaming, h]
  · intro status body evs ds h
    simp [handle_stream_request, h, String.join]
  · intro status body evs ds e h
    simp [handle_stream_request, h]

/-- C5 witness: the generic-v2 trace with tokens `"A"` then `"B"`: the
streaming decoder yields `["A", "B"]` and the buffered call returns `"AB"`. -/
theorem C5_buffered_call_concatenates_deltas_witness :
    process_stream_response urlV2Ex traceV2 = (["A", "B"], Option.none)
    ∧ studio_call_streaming urlV2Ex traceV2 = .ok "AB" :=
  ⟨rfl, C5_buffered_call_concatenates_deltas.1 urlV2Ex traceV2 ["A", "B"] rfl⟩

/-- Unclassified URLs make `_get_tuning_params` fail whatever the other
arguments are. -/
theorem unclassified_tuning_fails (url : String) (h : studioVariant url = Option.none)
    (kwargs : List (String × Py)) (stop : List String) :
    exceptOk (get_tuning_params url kwargs stop) = false := by
  have h1 : pyContains url "openai" = false := by
    by_contra hx
    simp only [Bool.not_eq_false] at hx
    simp [studioVariant, hx] at h
  have h2 : pyContains url "api/v2/predict/generic" = false := by
    by_contra hx
    simp only [Bool.not_eq_false] at hx
    simp [studioVariant, h1, hx] at h
  have h3 : pyContains url "api/predict/generic" = false := by
    by_contra hx
    simp only [Bool.not_eq_false] at hx
    simp [studioVariant, h1, h2, hx] at h
  rcases hlk : pyLookup kwargs "stop_sequences" with _ | v
  · simp [get_tuning_params, tuningCore, hlk, h1, h2, h3, exceptOk]
  · cases v <;> simp [get_tuning_params, tuningCore, hlk, h1, h2, h3, exceptOk]

/-- C6 (amended): call-time dispatch selects exactly one studio variant by
substring precedence (`openai`, then the v2 path, then the v1 path) and
`_get_tuning_params` fails for URLs matching none of the three; configuration
time classification (`_get_sambastudio_urls`) succeeds exactly when the URL
contains `openai`, `stream` or `generic`; and the two gates differ — a URL
can be accepted at configuration time yet rejected by every call-time stage. -/
theorem C6_endpoint_classification :
    (∀ url kwargs stop, studioVariant url = Option.none →
        exceptOk (get_tuning_params url kwargs stop) = false)
    ∧ (∀ url, exceptOk (get_sambastudio_urls url)
        = (pyContains url "openai" || pyContains url "stream" || pyContains url "generic"))
    ∧ (∀ url, pyContains url "openai" = true →
        studioVariant url = some .openaiCompatible)
    ∧ (∀ url, pyContains url "openai" = false →
        pyContains url "api/v2/predict/generic" = true →
        studioVariant url = some .genericV2)
    ∧ (∀ url, pyContains url "openai" = false →
        pyContains url "api/v2/predict/generic" = false →
        pyContains url "api/predict/generic" = true →
        studioVariant url = some .genericV1)
    ∧ (∃ url, exceptOk (get_sambastudio_urls url) = true
        ∧ studioVariant url = Option.none) := by
  refine ⟨fun url kwargs stop h => unclassified_tuning_fails url h kwargs stop,
    ?_, ?_, ?_, ?_, ⟨urlStreamEx, rfl, rfl⟩⟩
  · intro url
    by_cases h1 : pyContains url "openai"
    · simp [get_sambastudio_urls, h1, exceptOk]
    · by_cases h2 : pyContains url "stream"
      · simp [get_sambastudio_urls, h1, h2, exceptOk]
      · by_cases h3 : pyContains url "generic"
        · simp [get_sambastudio_urls, h1, h2, h3, exceptOk]
        · simp [get_sambastudio_urls, h1, h2, h3, exceptOk]
  · intro url h; simp [studioVariant, h]
  · intro url h1 h2; simp [studioVariant, h1, h2]
  · intro url h1 h2 h3; simp [studioVariant, h1, h2, h3]

/-- C6 counterexample: `"https://host/stream/endpoint-id"` is accepted by the
configuration-time classification but rejected by the call-time parameter
mapping stage — classification does not fail at configuration time for this
URL although it matches none of the three dispatch substrings. -/
theorem C6_config_accepts_call_rejects :
    exceptOk (get_sambastudio_urls urlStreamEx) = true
    ∧ exceptOk (get_tuning_params urlStreamEx [] []) = false :=
  ⟨rfl, rfl⟩

/-- C6 witness: the unclassified-URL clause applied to the concrete
stream-only URL and a non-trivial kwargs dict. -/
theorem C6_endpoint_classification_witness :
    studioVariant urlStreamEx = Option.none
    ∧ exceptOk (get_tuning_params urlStreamEx [("max_tokens", .int 10)] []) = false :=
  ⟨rfl, C6_endpoint_classification.1 urlStreamEx [("max_tokens", .int 10)] [] rfl⟩

/-- C7 (amended): for a studio URL without the OpenAI-compatible marker: if
it contains `stream`, the derived pair is (input with every occurrence of
`stream/` removed — in particular the input unchanged when `stream` is not
followed by a slash — , input unchanged); otherwise if it contains `generic`,
the pair is (input unchanged, input with `/stream` inserted after every
occurrence of `generic`); otherwise derivation fails.  When the URL really
contains `stream/` the derived base URL is strictly shorter than the input. -/
theorem C7_studio_url_pair_derivation :
    (∀ url, pyContains url "openai" = false → pyContains url "stream" = true →
        get_sambastudio_urls url = .ok (pyReplaceAll url "stream/" "", url))
    ∧ (∀ url, pyContains url "openai" = false → pyContains url "stream" = false →
        pyContains url "generic" = true →
        get_sambastudio_urls url = .ok (url, pyReplaceAll url "generic" "generic/stream"))
    ∧ (∀ url, pyContains url "openai" = false → pyContains url "stream" = false →
        pyContains url "generic" = false →
        get_sambastudio_urls url = .error "Unsupported URL")
    ∧ (∀ url, pyContains url "stream/" = true →
        (pyReplaceAll url "stream/" "").length < url.length) := by
  refine ⟨?_, ?_, ?_, ?_⟩
  · intro url h1 h2; simp [get_sambastudio_urls, h1, h2]
  · intro url h1 h2 h3; simp [get_sambastudio_urls, h1, h2, h3]
  · intro url h1 h2 h3; simp [get_sambastudio_urls, h1, h2, h3]
  · intro url h
    exact replChars_nil_lt url.toList ("stream/".toList) (by decide) h

/-- C7 counterexample: a URL whose `stream` tail has no trailing slash: the
claim requires the derived base URL to be the input with the streaming
sub-path segment removed (hence shorter), but the code returns the input
unchanged as both base and streaming URL. -/
theorem C7_trailing_stream_base_not_stripped :
    get_sambastudio_urls urlTailStream = .ok (urlTailStream, urlTailStream)
    ∧ pyContains urlTailStream "stream" = true
    ∧ pyContains urlTailStream "openai" = false :=
  ⟨rfl, rfl, rfl⟩

/-- C7 witness: the generic-insertion clause applied to the concrete v1 URL. -/
theorem C7_studio_url_pair_derivation_witness :
    get_sambastudio_urls urlV1Ex
      = .ok (urlV1Ex, pyReplaceAll urlV1Ex "generic" "generic/stream") :=
  C7_studio_url_pair_derivation.2.1 urlV1Ex (by decide) (by decide) (by decide)

/-- C8: for every generic-v1 classified URL, every value of the mapped
parameter dict is the `{type, value}` string envelope of an original kwargs
value, and for primitive-typed originals (int, bool, str) parsing the `value`
string back through the declared `type` name recovers the original value.
(The stringification `str(v)` performed by the source is total on the
modelled value universe, so no value can fail to be enveloped.) -/
theorem C8_generic_v1_parameter_envelopes :
    ∀ url kwargs stop tp st,
      pyContains url "openai" = false →
      pyContains url "api/v2/predict/generic" = false →
      pyContains url "api/predict/generic" = true →
      get_tuning_params url kwargs stop = .ok (tp, st) →
      ∀ kv ∈ tp, ∃ v0, kv.2 = envelope v0
        ∧ (isPrim v0 = true → parsePrim (typeName v0) (pyStr v0) = some v0) := by
  intro url kwargs stop tp st h1 h2 h3 hok kv hmem
  rcases hlk : pyLookup kwargs "stop_sequences" with _ | v
  · simp only [get_tuning_params, tuningCore, hlk] at hok
    simp [h1, h2, h3] at hok
    obtain ⟨htp, -⟩ := hok
    subst htp
    rw [List.mem_map] at hmem
    obtain ⟨kv0, -, rfl⟩ := hmem
    exact ⟨kv0.2, rfl, prim_roundtrip kv0.2⟩
  · cases v with
    | list l =>
      simp only [get_tuning_params, tuningCore, hlk] at hok
      simp [h1, h2, h3] at hok
      obtain ⟨htp, -⟩ := hok
      subst htp
      rw [List.mem_map] at hmem
      obtain ⟨kv0, -, rfl⟩ := hmem
      exact ⟨kv0.2, rfl, prim_roundtrip kv0.2⟩
    | none => simp [get_tuning_params, tuningCore, hlk] at hok
    | bool b => simp [get_tuning_params, tuningCore, hlk] at hok
    | int n => simp [get_tuning_params, tuningCore, hlk] at hok
    | str s => simp [get_tuning_params, tuningCore, hlk] at hok
    | dict kvs => simp [get_tuning_params, tuningCore, hlk] at hok

/-- C8 witness: the mapped `max_tokens` parameter of a concrete v1 client is
the envelope of the integer 10 and round-trips. -/
theorem C8_generic_v1_parameter_envelopes_witness :
    ∃ v0, (envelope (.int 10)) = envelope v0
      ∧ (isPrim v0 = true → parsePrim (typeName v0) (pyStr v0) = some v0) :=
  C8_generic_v1_parameter_envelopes urlV1Ex [("max_tokens", .int 10)] []
    [("max_tokens_to_generate", envelope (.int 10))]
    [("max_tokens_to_generate", .int 10)]
    (by decide) (by decide) (by decide) rfl
    ("max_tokens_to_generate", envelope (.int 10)) (by simp)

/-- C9 (amended): the non-streaming decoder returns the value at the
variant-specific JSON path; a body that is not valid JSON fails with the
error that embeds the raw body text; a body whose expected path is absent
fails with the bare subscript error (KeyError / IndexError / TypeError) of
whichever step of the variant-specific subscript chain failed, for all three
variants — an error that does not carry the body. -/
theorem C9_nonstreaming_decode :
    (∀ url resp, resp.json = Option.none →
        process_response url resp = .error (.jsonDecodeError resp.text))
    ∧ (∀ url resp d cs c0 m v, resp.json = some d →
        pyContains url "openai" = true →
        pySubKey d "choices" = .ok cs → pySubIdx cs 0 = .ok c0 →
        pySubKey c0 "message" = .ok m → pySubKey m "content" = .ok v →
        process_response url resp = .ok v)
    ∧ (∀ url resp d it i0 v c, resp.json = some d →
        pyContains url "openai" = false →
        pyContains url "api/v2/predict/generic" = true →
        pySubKey d "items" = .ok it → pySubIdx it 0 = .ok i0 →
        pySubKey i0 "value" = .ok v → pySubKey v "completion" = .ok c →
        process_response url resp = .ok c)
    ∧ (∀ url resp d ps p0 c, resp.json = some d →
        pyContains url "openai" = false →
        pyContains url "api/v2/predict/generic" = false →
        pyContains url "api/predict/generic" = true →
        pySubKey d "predictions" = .ok ps → pySubIdx ps 0 = .ok p0 →
        pySubKey p0 "completion" = .ok c →
        process_response url resp = .ok c)
    ∧ (∀ url resp d e, resp.json = some d →
        pyContains url "openai" = true →
        (pySubKey d "choices").bind (fun cs => (pySubIdx cs 0).bind
          (fun c0 => (pySubKey c0 "message").bind (fun m => pySubKey m "content")))
          = .error e →
        process_response url resp = .error (.py e))
    ∧ (∀ url resp d e, resp.json = some d →
        pyContains url "openai" = false →
        pyContains url "api/v2/predict/generic" = true →
        (pySubKey d "items").bind (fun it => (pySubIdx it 0).bind
          (fun i0 => (pySubKey i0 "value").bind (fun v => pySubKey v "completion")))
          = .error e →
        process_response url resp = .error (.py e))
    ∧ (∀ url resp d e, resp.json = some d →
        pyContains url "openai" = false →
        pyContains url "api/v2/predict/generic" = false →
        pyContains url "api/predict/generic" = true →
        (pySubKey d "predictions").bind (fun ps => (pySubIdx ps 0).bind
          (fun p0 => pySubKey p0 "completion")) = .error e →
        process_response url resp = .error (.py e)) := by
  refine ⟨?_, ?_, ?_, ?_, ?_, ?_, ?_⟩
  · intro url resp h
    simp [process_response, h]
  · intro url resp d cs c0 m v hj hurl h1 h2 h3 h4
    simp [process_response, hj, hurl, h1, h2, h3, h4, Except.bind]
  · intro url resp d it i0 v c hj hno hurl h1 h2 h3 h4
    simp [process_response, hj, hno, hurl, h1, h2, h3, h4, Except.bind]
  · intro url resp d ps p0 c hj hno hno2 hurl h1 h2 h3
    simp [process_response, hj, hno, hno2, hurl, h1, h2, h3, Except.bind]
  · intro url resp d e hj hurl h1
    simp [process_response, hj, hurl, h1]
  · intro url resp d e hj hno hurl h1
    simp [process_response, hj, hno, hurl, h1]
  · intro url resp d e hj hno hno2 hurl h1
    simp [process_response, hj, hno, hno2, hurl, h1]

/-- C9 counterexample: a valid-JSON body `{"foo": 1}` lacking the expected
path makes the OpenAI-compatible decoder fail with the bare
`KeyError "choices"` — not with the raw-body-carrying malformed-response
error the claim requires for an absent path. -/
theorem C9_missing_path_error_lacks_body :
    process_response urlOpenAIEx
      ⟨"\x7b\"foo\": 1\x7d", some (.dict [("foo", .int 1)])⟩
      = .error (.py (.keyError "choices")) := rfl

/-- C9 witness: the invalid-JSON clause at a concrete body, and the
generic-v2 chain-failure clause at a body whose `items` list is empty
(an IndexError deeper in the subscript chain). -/
theorem C9_nonstreaming_decode_witness :
    process_response urlOpenAIEx ⟨"not json", Option.none⟩
      = .error (.jsonDecodeError "not json")
    ∧ process_response urlV2Ex ⟨"\x7b\"items\": []\x7d", some (.dict [("items", .list [])])⟩
      = .error (.py .indexError) :=
  ⟨C9_nonstreaming_decode.1 urlOpenAIEx ⟨"not json", Option.none⟩ rfl,
   C9_nonstreaming_decode.2.2.2.2.2.1 urlV2Ex
     ⟨"\x7b\"items\": []\x7d", some (.dict [("items", .list [])])⟩
     (.dict [("items", .list [])]) .indexError rfl (by decide) (by decide) rfl⟩
